import Mathlib

set_option maxHeartbeats 1000000
set_option linter.unusedVariables false

namespace CompareClan

/-- Model of a Python float as it occurs in the payloads this script compares:
either a float of exact integer value (`.ofInt n` is Python's `float(n)`,
e.g. `1.0`), or the special non-reflexive value NaN.  This fragment suffices
for the numeric-representation behaviour the comparator is specified on while
keeping Python's `==` and `json.dumps` semantics exact. -/
inductive PyFloat where
  | ofInt : Int → PyFloat
  | nan : PyFloat
deriving DecidableEq

/-- A payload as handled by `compare_clan_responses.py`: JSON-like data made
of Python dicts (insertion-ordered string-keyed mappings, modelled as
association lists), lists, strings, ints, floats, booleans and `None`. -/
inductive Payload where
  | dict : List (String × Payload) → Payload
  | list : List Payload → Payload
  | str : String → Payload
  | int : Int → Payload
  | float : PyFloat → Payload
  | bool : Bool → Payload
  | null : Payload

/-- The fixed `ignore_keys` set of `_compare_dicts`. -/
def ignore_keys : List String := ["builderBaseRank", "status_code", "timestamp"]

def isPrefixChars : List Char → List Char → Bool
  | [], _ => true
  | _ :: _, [] => false
  | a :: as, b :: bs => a == b && isPrefixChars as bs

/-- Python `s.startswith(p)`. -/
def pyStartsWith (s p : String) : Bool := isPrefixChars p.data s.data

mutual

/-- The inner `normalize` of `_compare_dicts`: drop ignored and
underscore-private keys from every dict, recurse into dict values and list
elements, pass scalars through. -/
def normalize : Payload → Payload
  | .dict kvs => .dict (normalizeItems kvs)
  | .list xs => .list (normalizeList xs)
  | v => v

/-- The dict comprehension inside `normalize`:
keep `(k, normalize v)` for the items whose key neither starts with `"_"`
nor belongs to `ignore_keys`. -/
def normalizeItems : List (String × Payload) → List (String × Payload)
  | [] => []
  | (k, v) :: rest =>
    if !pyStartsWith k "_" && !ignore_keys.contains k then
      (k, normalize v) :: normalizeItems rest
    else
      normalizeItems rest

/-- The list comprehension inside `normalize`. -/
def normalizeList : List Payload → List Payload
  | [] => []
  | x :: xs => normalize x :: normalizeList xs

end

/-- Python dict lookup `d[k]` / membership `k in d` on the association-list
model (keys of a Python dict are unique, so first match is the match). -/
def lookupKV (k : String) : List (String × Payload) → Option Payload
  | [] => none
  | (k2, v) :: rest => if k2 == k then some v else lookupKV k rest

/-- The numeric value of a payload, when it is one of Python's numeric types:
`int`, integral `float`, or `bool` (Python booleans are numbers: `True == 1`).
NaN has no numeric value here because `nan == x` is false for every `x`. -/
def numVal : Payload → Option Int
  | .int n => some n
  | .float (.ofInt n) => some n
  | .bool b => some (if b then 1 else 0)
  | _ => none

mutual

/-- Python `==` between two payloads: dicts compare by size and per-key
lookup, lists compare by length and position, strings and `None` compare to
themselves, and numbers (`int`/`float`/`bool`) compare by numeric value
across types.  NaN is unequal to everything, which is how `==` behaves on
the independently produced values this script compares. -/
def pyEq : Payload → Payload → Bool
  | .dict a, .dict b => a.length == b.length && pyEqItems a b
  | .list a, .list b => a.length == b.length && pyEqElems a b
  | .str a, .str b => a == b
  | .null, .null => true
  | a, b =>
    match numVal a, numVal b with
    | some x, some y => x == y
    | _, _ => false

/-- Every item of the left dict has an `==`-equal value under the same key in
the right dict (the element-wise part of Python dict equality). -/
def pyEqItems : List (String × Payload) → List (String × Payload) → Bool
  | [], _ => true
  | (k, v) :: rest, b =>
    (match lookupKV k b with
     | some w => pyEq v w
     | none => false) && pyEqItems rest b

/-- Position-wise Python `==` on list elements. -/
def pyEqElems : List Payload → List Payload → Bool
  | [], _ => true
  | _ :: _, [] => false
  | a :: as, b :: bs => pyEq a b && pyEqElems as bs

end

example : pyEq (.int 1) (.float (.ofInt 1)) = true := by decide
example : pyEq (.float .nan) (.float .nan) = false := by decide
example : normalize (.dict [("_x", .int 1), ("a", .int 2)]) = .dict [("a", .int 2)] := rfl
example : pyEq (.dict [("a", .int 1), ("b", .int 2)]) (.dict [("b", .int 2), ("a", .int 1)]) = true := by decide

/-! ### Canonical serialization: `json.dumps(value, sort_keys=True)` -/

/-- Lexicographic code-point comparison of character lists, Python's `<` on
strings. -/
def charsLt : List Char → List Char → Bool
  | [], [] => false
  | [], _ :: _ => true
  | _ :: _, [] => false
  | a :: as, b :: bs =>
    if a.val < b.val then true
    else if b.val < a.val then false
    else charsLt as bs

/-- Python string comparison `x < y`. -/
def strLt (x y : String) : Bool := charsLt x.data y.data

/-- JSON string escaping as `json.dumps` performs it on the characters that
occur in this script's payloads (quote, backslash and the common control
characters). -/
def escapeChar (c : Char) : List Char :=
  if c == '"' then ['\\', '"']
  else if c == '\\' then ['\\', '\\']
  else if c == '\n' then ['\\', 'n']
  else if c == '\t' then ['\\', 't']
  else if c == '\r' then ['\\', 'r']
  else [c]

/-- A JSON string literal for `s`. -/
def jsonQuote (s : String) : String :=
  ⟨'"' :: (s.data.foldr (fun c acc => escapeChar c ++ acc) ['"'])⟩

/-- `json.dumps` rendering of the modelled floats: `repr(1.0) = "1.0"`,
`repr(float("nan")) = "nan"` but `json.dumps` writes `NaN`. -/
def dumpFloat : PyFloat → String
  | .ofInt n => toString n ++ ".0"
  | .nan => "NaN"

/-- Join with `json.dumps`' default item separator `", "`. -/
def joinComma : List String → String
  | [] => ""
  | [x] => x
  | x :: y :: rest => x ++ ", " ++ joinComma (y :: rest)

/-- Insert one already-serialized dict entry into a key-sorted entry list. -/
def insertEntry (e : String × String) : List (String × String) → List (String × String)
  | [] => [e]
  | f :: fs => if strLt f.1 e.1 then f :: insertEntry e fs else e :: f :: fs

/-- Sort serialized dict entries by key (`sort_keys=True`). -/
def sortEntries : List (String × String) → List (String × String)
  | [] => []
  | e :: es => insertEntry e (sortEntries es)

/-- Render one dict entry with the default key separator `": "`. -/
def renderEntry (e : String × String) : String := jsonQuote e.1 ++ ": " ++ e.2

mutual

/-- `json.dumps(value, sort_keys=True)` on the modelled payload fragment:
keys sorted at every nesting level, default separators `", "` and `": "`. -/
def dumps : Payload → String
  | .dict kvs => "\x7b" ++ joinComma ((sortEntries (dumpItems kvs)).map renderEntry) ++ "\x7d"
  | .list xs => "[" ++ joinComma (dumpElems xs) ++ "]"
  | .str s => jsonQuote s
  | .int n => toString n
  | .float f => dumpFloat f
  | .bool b => if b then "true" else "false"
  | .null => "null"

/-- Serialize each dict item's value, keeping its key for sorting. -/
def dumpItems : List (String × Payload) → List (String × String)
  | [] => []
  | (k, v) :: rest => (k, dumps v) :: dumpItems rest

/-- Serialize the elements of a list payload. -/
def dumpElems : List Payload → List String
  | [] => []
  | x :: xs => dumps x :: dumpElems xs

end

example : dumps (.dict [("b", .int 2), ("a", .int 1)]) = "\x7b\x22a\x22: 1, \x22b\x22: 2\x7d" := by decide
example : dumps (.int 1) = "1" := by decide
example : dumps (.float (.ofInt 1)) = "1.0" := by decide

/-! ### Divergence localization: `find_difference` -/

/-- `type(v).__name__` for the payload types. -/
def typeName : Payload → String
  | .dict _ => "dict"
  | .list _ => "list"
  | .str _ => "str"
  | .int _ => "int"
  | .float _ => "float"
  | .bool _ => "bool"
  | .null => "NoneType"

mutual

/-- Python `repr` of a payload (as used by the `!r` format in the value
mismatch message; only scalars actually reach that message). -/
def pyRepr : Payload → String
  | .dict kvs => "\x7b" ++ joinComma (reprItems kvs) ++ "\x7d"
  | .list xs => "[" ++ joinComma (reprElems xs) ++ "]"
  | .str s => "\x27" ++ s ++ "\x27"
  | .int n => toString n
  | .float (.ofInt n) => toString n ++ ".0"
  | .float .nan => "nan"
  | .bool b => if b then "True" else "False"
  | .null => "None"

def reprItems : List (String × Payload) → List String
  | [] => []
  | (k, v) :: rest => ("\x27" ++ k ++ "\x27: " ++ pyRepr v) :: reprItems rest

def reprElems : List Payload → List String
  | [] => []
  | x :: xs => pyRepr x :: reprElems xs

end

/-- Insert a string into an ascending sorted list (`sorted`, ascending by
code-point order). -/
def insertStr (x : String) : List String → List String
  | [] => [x]
  | y :: ys => if strLt y x then y :: insertStr x ys else x :: y :: ys

/-- Insertion sort in Python's ascending string order. -/
def sortStrs : List String → List String
  | [] => []
  | x :: xs => insertStr x (sortStrs xs)

/-- Remove duplicate strings (the effect of going through `set`). -/
def dedupKeys : List String → List String
  | [] => []
  | k :: rest => k :: (dedupKeys rest).filter (fun k2 => k2 != k)

/-- `sorted(set(a) | set(b))` on the keys of the two dicts. -/
def sortedKeyUnion (a b : List (String × Payload)) : List String :=
  sortStrs (dedupKeys (a.map Prod.fst ++ b.map Prod.fst))

theorem sizeOf_lookupKV {k : String} {v : Payload} :
    ∀ kvs : List (String × Payload), lookupKV k kvs = some v → sizeOf v < sizeOf kvs
  | [], h => by simp [lookupKV] at h
  | (k2, w) :: rest, h => by
    simp only [lookupKV] at h
    split at h
    · cases h
      simp only [List.cons.sizeOf_spec, Prod.mk.sizeOf_spec]
      omega
    · have hrec := sizeOf_lookupKV rest h
      simp only [List.cons.sizeOf_spec, Prod.mk.sizeOf_spec]
      omega

mutual

/-- `find_difference` from `_compare_dicts`: locate the first difference
between two payloads, extending the path with `.key` for dict descent and
`[index]` for list descent; returns `""` when no difference is found.  The
final catch-all arm compares scalars; a dict/list pair can only reach it
when the type test above has already returned, so it is never taken for
containers, mirroring the source's flow. -/
def find_difference (a b : Payload) (path : String) : String :=
  if typeName a ≠ typeName b then
    path ++ ": type mismatch " ++ typeName a ++ " vs " ++ typeName b
  else
    match a, b with
    | .dict da, .dict db => diffKeys (sortedKeyUnion da db) da db path
    | .list la, .list lb =>
      if la.length ≠ lb.length then
        path ++ ": list length " ++ toString la.length ++ " vs " ++ toString lb.length
      else
        diffElems la lb path 0
    | x, y =>
      if !pyEq x y then
        path ++ ": value mismatch " ++ pyRepr x ++ " vs " ++ pyRepr y
      else ""
termination_by (sizeOf a + sizeOf b, 0)
decreasing_by
  all_goals simp_wf
  all_goals (apply Prod.Lex.left; simp_arith)

/-- The `for key in keys` loop of `find_difference`: report a key missing
from either side, otherwise recurse into the key and stop at the first
reported difference. -/
def diffKeys (keys : List String) (da db : List (String × Payload)) (path : String) : String :=
  match keys with
  | [] => ""
  | key :: rest =>
    match hA : lookupKV key da with
    | none => path ++ "." ++ key ++ ": missing from Python payload"
    | some av =>
      match hB : lookupKV key db with
      | none => path ++ "." ++ key ++ ": missing from Java payload"
      | some bv =>
        let diff := find_difference av bv (path ++ "." ++ key)
        if diff ≠ "" then diff else diffKeys rest da db path
termination_by (sizeOf da + sizeOf db, keys.length)
decreasing_by
  all_goals simp_wf
  all_goals
    first
    | (apply Prod.Lex.right; simp_arith)
    | (apply Prod.Lex.left
       have h1 := sizeOf_lookupKV _ hA
       have h2 := sizeOf_lookupKV _ hB
       omega)

/-- The `for idx, (aval, bval) in enumerate(zip(a, b))` loop of
`find_difference` (lengths are equal when it runs). -/
def diffElems (as bs : List Payload) (path : String) (idx : Nat) : String :=
  match as, bs with
  | a :: as2, b :: bs2 =>
    let diff := find_difference a b (path ++ "[" ++ toString idx ++ "]")
    if diff ≠ "" then diff else diffElems as2 bs2 path (idx + 1)
  | _, _ => ""
termination_by (sizeOf as + sizeOf bs, 0)
decreasing_by
  all_goals simp_wf
  all_goals (apply Prod.Lex.left; simp_arith)

end

/-! ### The comparator `_compare_dicts` -/

/-- Observable outcome of `_compare_dicts`: tier-1 success (prints the
byte-for-byte message and returns), tier-2 success (prints the
key-normalization message and returns), or `SystemExit` carrying the
located difference. -/
inductive CompareResult where
  | matchExact
  | matchCanonical
  | mismatch (diff : String)
deriving DecidableEq

/-- `_compare_dicts`: normalize both payloads, then tier-1 Python `==`,
then tier-2 canonical-text comparison, else exit with the first located
difference (the `SystemExit` message prepends a fixed prefix to the
`find_difference` result carried here). -/
def _compare_dicts (left right : Payload) : CompareResult :=
  let l := normalize left
  let r := normalize right
  if pyEq l r then .matchExact
  else if dumps l == dumps r then .matchCanonical
  else .mismatch (find_difference l r "root")

/-! ### Environment validation and the Java-side fetcher -/

/-- Python truthiness of an `Optional[str]`: `None` and `""` are falsy. -/
def pyTruthyStr : Option String → Bool
  | none => false
  | some s => s ≠ ""

/-- `_require_env`: read the variable from the environment (modelled as a
partial map), raise `SystemExit` with the missing-variable message when the
value is falsy (absent or empty), otherwise return it. -/
def _require_env (name : String) (getenv : String → Option String) : Except String String :=
  let value := getenv name
  if !pyTruthyStr value then
    .error ("Missing required environment variable: " ++ name)
  else
    .ok (value.getD "")

/-- The parts of `subprocess.run`'s completed-process result that
`_fetch_java_clan` inspects. -/
structure SubprocResult where
  returncode : Int
  stdout : String
  stderr : String

/-- Python's default whitespace set for `str.strip()`. -/
def pyIsSpace (c : Char) : Bool :=
  c == ' ' || c == '\t' || c == '\n' || c == '\r' || c == '\x0b' || c == '\x0c'

/-- Python `s.strip()`. -/
def pyStrip (s : String) : String :=
  ⟨((s.data.dropWhile pyIsSpace).reverse.dropWhile pyIsSpace).reverse⟩

/-- `_fetch_java_clan` given the completed subprocess result, with
`json.loads` modelled as a parameter returning `none` on a
`JSONDecodeError` (whose exception detail the error message therefore
omits): non-zero exit, empty stripped output, and unparseable output each
raise `SystemExit`; otherwise the parsed payload is returned. -/
def _fetch_java_clan (result : SubprocResult) (json_loads : String → Option Payload) :
    Except String Payload :=
  if result.returncode ≠ 0 then
    .error ("Java client execution failed with exit code " ++ toString result.returncode)
  else
    let output := pyStrip result.stdout
    if output = "" then
      .error "Java client did not return any JSON output"
    else
      match json_loads output with
      | some payload => .ok payload
      | none => .error ("Failed to parse Java client output as JSON\nOutput was:\n" ++ output)

/-! ### Spec-side definitions and shared lemmas -/

/-- Key retention as the spec words it: a key survives normalization iff it
is not in the fixed ignore set (named literally here) and does not begin
with the private `"_"` marker. -/
def specKeepKey (k : String) : Bool :=
  !(["builderBaseRank", "status_code", "timestamp"].contains k) && !(pyStartsWith k "_")

/-- The spec-side retention test agrees with the source's comprehension
condition. -/
theorem specKeepKey_eq_source (k : String) :
    specKeepKey k = (!pyStartsWith k "_" && !ignore_keys.contains k) := by
  simp [specKeepKey, ignore_keys, Bool.and_comm]

/-- The item comprehension of `normalize` is filtering by the retention test
followed by normalizing the retained values. -/
theorem normalizeItems_eq_filter_map :
    ∀ kvs, normalizeItems kvs
      = (kvs.filter fun kv => specKeepKey kv.1).map fun kv => (kv.1, normalize kv.2)
  | [] => rfl
  | (k, v) :: rest => by
    by_cases h : (!pyStartsWith k "_" && !ignore_keys.contains k) = true
    · have hk : specKeepKey k = true := (specKeepKey_eq_source k).trans h
      simp at h
      simp [normalizeItems, List.filter_cons, h, hk, normalizeItems_eq_filter_map rest]
    · have hk : specKeepKey k = false := by
        rw [specKeepKey_eq_source k]
        revert h
        cases (!pyStartsWith k "_" && !ignore_keys.contains k) <;> simp
      simp at h
      have hneg : ¬(pyStartsWith k "_" = false ∧ k ∉ ignore_keys) := fun hc => hc.2 (h hc.1)
      simp [normalizeItems, List.filter_cons, hneg, hk, normalizeItems_eq_filter_map rest]

/-- The element comprehension of `normalize` maps `normalize` over the
list. -/
theorem normalizeList_eq_map : ∀ xs, normalizeList xs = xs.map normalize
  | [] => rfl
  | x :: xs => by simp [normalizeList, normalizeList_eq_map xs]

mutual

theorem normalize_normalize : ∀ p : Payload, normalize (normalize p) = normalize p
  | .dict kvs => by simp [normalize, normalizeItems_normalizeItems kvs]
  | .list xs => by simp [normalize, normalizeList_normalizeList xs]
  | .str s => rfl
  | .int n => rfl
  | .float f => rfl
  | .bool b => rfl
  | .null => rfl

theorem normalizeItems_normalizeItems :
    ∀ kvs, normalizeItems (normalizeItems kvs) = normalizeItems kvs
  | [] => rfl
  | (k, v) :: rest => by
    by_cases h : (!pyStartsWith k "_" && !ignore_keys.contains k) = true
    · simp at h
      simp [normalizeItems, h, normalizeItems_normalizeItems rest, normalize_normalize v]
    · simp at h
      have hneg : ¬(pyStartsWith k "_" = false ∧ k ∉ ignore_keys) := fun hc => hc.2 (h hc.1)
      simp [normalizeItems, hneg, normalizeItems_normalizeItems rest]

theorem normalizeList_normalizeList :
    ∀ xs, normalizeList (normalizeList xs) = normalizeList xs
  | [] => rfl
  | x :: xs => by
    simp [normalizeList, normalize_normalize x, normalizeList_normalizeList xs]

end

/-! ### Claim theorems -/

/-- Claim C1: normalization removes from every mapping exactly the keys that
are in the fixed ignore set or begin with `"_"`, recursively normalizes the
remaining mapping values and every sequence element, and returns scalars
unchanged. -/
theorem C1_normalize_characterization :
    (∀ kvs, normalize (.dict kvs)
        = .dict ((kvs.filter fun kv => specKeepKey kv.1).map fun kv => (kv.1, normalize kv.2)))
  ∧ (∀ xs, normalize (.list xs) = .list (xs.map normalize))
  ∧ (∀ s, normalize (.str s) = .str s)
  ∧ (∀ n, normalize (.int n) = .int n)
  ∧ (∀ f, normalize (.float f) = .float f)
  ∧ (∀ b, normalize (.bool b) = .bool b)
  ∧ normalize .null = .null :=
  ⟨fun kvs => by simp [normalize, normalizeItems_eq_filter_map],
   fun xs => by simp [normalize, normalizeList_eq_map],
   fun s => rfl, fun n => rfl, fun f => rfl, fun b => rfl, rfl⟩

/-- Claim C6: normalization is idempotent. -/
theorem C6_normalize_idempotent : ∀ P : Payload, normalize (normalize P) = normalize P :=
  fun P => normalize_normalize P

/-- Did the comparator report equivalence (either success print) rather than
exiting with a mismatch? -/
def reportsMatch : CompareResult → Bool
  | .mismatch _ => false
  | _ => true

/-- Payloads with equal normal forms are always reported equivalent: tier 1
if Python `==` accepts the common normal form, tier 2 otherwise (the
canonical texts of one and the same normal form are identical). -/
theorem reportsMatch_of_normalize_eq {P Q : Payload} (h : normalize P = normalize Q) :
    reportsMatch (_compare_dicts P Q) = true := by
  simp only [_compare_dicts]
  rw [h]
  by_cases hp : pyEq (normalize Q) (normalize Q) = true
  · simp [hp, reportsMatch]
  · simp [hp, reportsMatch]

/-- Claim C2: whenever tier-1 structural equality of the normalized payloads
fails but their canonical textual serializations coincide, the comparator
reports equivalence via the tier-2 fallback. -/
theorem C2_tier2_canonical_fallback :
    ∀ left right : Payload,
      pyEq (normalize left) (normalize right) = false →
      dumps (normalize left) = dumps (normalize right) →
      _compare_dicts left right = .matchCanonical := by
  intro l r h1 h2
  simp [_compare_dicts, h1, h2]

theorem C2_tier2_canonical_fallback_witness :
    pyEq (normalize (.dict [("a", .float .nan)])) (normalize (.dict [("a", .float .nan)])) = false
  ∧ dumps (normalize (.dict [("a", .float .nan)])) = dumps (normalize (.dict [("a", .float .nan)]))
  ∧ _compare_dicts (.dict [("a", .float .nan)]) (.dict [("a", .float .nan)]) = .matchCanonical :=
  ⟨by decide, rfl, C2_tier2_canonical_fallback _ _ (by decide) rfl⟩

/-- Claim C3: divergence localization walks dicts over the sorted union of
both key sets, reports a key absent on the left as missing from the Python
payload and one absent on the right as missing from the Java payload, and
returns the first difference of this traversal; on the two inputs named by
the spec it reports `root.a.y: value mismatch 2 vs 3` and
`root.a: missing from Java payload`. -/
theorem C3_divergence_localization :
    (∀ da db path, find_difference (.dict da) (.dict db) path
        = diffKeys (sortedKeyUnion da db) da db path)
  ∧ (∀ key rest da db path, lookupKV key da = none →
        diffKeys (key :: rest) da db path
          = path ++ "." ++ key ++ ": missing from Python payload")
  ∧ (∀ key rest da db path av, lookupKV key da = some av → lookupKV key db = none →
        diffKeys (key :: rest) da db path
          = path ++ "." ++ key ++ ": missing from Java payload")
  ∧ _compare_dicts (.dict [("a", .dict [("x", .int 1), ("y", .int 2)])])
      (.dict [("a", .dict [("x", .int 1), ("y", .int 3)])])
      = .mismatch "root.a.y: value mismatch 2 vs 3"
  ∧ _compare_dicts (.dict [("a", .int 1)]) (.dict [])
      = .mismatch "root.a: missing from Java payload" := by
  refine ⟨?_, ?_, ?_, ?_, ?_⟩
  · intro da db path
    simp [find_difference, typeName]
  · intro key rest da db path h
    simp only [diffKeys]
    split <;> simp_all
  · intro key rest da db path av h h2
    simp only [diffKeys]
    split
    · simp_all
    · split <;> simp_all
  · simp [_compare_dicts, normalize, normalizeItems, pyStartsWith, isPrefixChars, ignore_keys,
      pyEq, pyEqItems, pyEqElems, numVal, lookupKV, dumps, dumpItems, dumpElems, sortEntries,
      insertEntry, renderEntry, joinComma, jsonQuote, escapeChar, dumpFloat, strLt, charsLt,
      find_difference, diffKeys, diffElems, sortedKeyUnion, sortStrs, insertStr, dedupKeys,
      typeName, pyRepr, reprItems, reprElems]
    decide
  · simp [_compare_dicts, normalize, normalizeItems, pyStartsWith, isPrefixChars, ignore_keys,
      pyEq, pyEqItems, pyEqElems, numVal, lookupKV, dumps, dumpItems, dumpElems, sortEntries,
      insertEntry, renderEntry, joinComma, jsonQuote, escapeChar, dumpFloat, strLt, charsLt,
      find_difference, diffKeys, diffElems, sortedKeyUnion, sortStrs, insertStr, dedupKeys,
      typeName, pyRepr, reprItems, reprElems]
    decide

theorem C3_divergence_localization_witness :
    lookupKV "a" ([] : List (String × Payload)) = none
  ∧ diffKeys ["a"] [] [("a", Payload.int 1)] "root" = "root.a: missing from Python payload"
  ∧ lookupKV "a" [("a", Payload.int 1)] = some (Payload.int 1)
  ∧ diffKeys ["a"] [("a", Payload.int 1)] [] "root" = "root.a: missing from Java payload" :=
  ⟨rfl,
   C3_divergence_localization.2.1 "a" [] [] [("a", .int 1)] "root" rfl,
   rfl,
   C3_divergence_localization.2.2.1 "a" [] [("a", .int 1)] [] "root" (.int 1) rfl rfl⟩

/-- Claim C4: values differing in type produce a type-mismatch report at the
current path and the walk stops there; in particular comparing
`{"a": 1}` with `{"a": [1]}` reports `root.a: type mismatch int vs list`. -/
theorem C4_type_mismatch_short_circuit :
    (∀ a b path, typeName a ≠ typeName b →
        find_difference a b path
          = path ++ ": type mismatch " ++ typeName a ++ " vs " ++ typeName b)
  ∧ _compare_dicts (.dict [("a", .int 1)]) (.dict [("a", .list [.int 1])])
      = .mismatch "root.a: type mismatch int vs list" := by
  constructor
  · intro a b path h
    unfold find_difference
    rw [if_pos h]
  · simp [_compare_dicts, normalize, normalizeItems, normalizeList, pyStartsWith, isPrefixChars,
      ignore_keys, pyEq, pyEqItems, pyEqElems, numVal, lookupKV, dumps, dumpItems, dumpElems,
      sortEntries, insertEntry, renderEntry, joinComma, jsonQuote, escapeChar, dumpFloat, strLt,
      charsLt, find_difference, diffKeys, diffElems, sortedKeyUnion, sortStrs, insertStr,
      dedupKeys, typeName, pyRepr, reprItems, reprElems]
    decide

theorem C4_type_mismatch_short_circuit_witness :
    typeName (Payload.int 1) ≠ typeName (Payload.list [.int 1])
  ∧ find_difference (.int 1) (.list [.int 1]) "root" = "root: type mismatch int vs list" :=
  ⟨by decide, C4_type_mismatch_short_circuit.1 _ _ _ (by decide)⟩

/-- Claim C5: the comparator is reflexive, payloads with equal normal forms
are always reported equivalent, and dict items under ignored or
private-prefixed keys are discarded by normalization, so they never affect
the equivalence result. -/
theorem C5_reflexivity_and_ignored_keys :
    (∀ P, reportsMatch (_compare_dicts P P) = true)
  ∧ (∀ P Q, normalize P = normalize Q → reportsMatch (_compare_dicts P Q) = true)
  ∧ (∀ k v kvs, specKeepKey k = false →
        normalizeItems ((k, v) :: kvs) = normalizeItems kvs) := by
  refine ⟨fun P => reportsMatch_of_normalize_eq rfl,
          fun P Q h => reportsMatch_of_normalize_eq h,
          fun k v kvs h => ?_⟩
  have hsrc : (!pyStartsWith k "_" && !ignore_keys.contains k) = false :=
    (specKeepKey_eq_source k).symm.trans h
  simp at hsrc
  have hneg : ¬(pyStartsWith k "_" = false ∧ k ∉ ignore_keys) := fun hc => hc.2 (hsrc hc.1)
  simp [normalizeItems, hneg]

theorem C5_reflexivity_and_ignored_keys_witness :
    normalize (Payload.dict [("a", .int 1), ("timestamp", .int 5)])
      = normalize (.dict [("_x", .str "s"), ("a", .int 1)])
  ∧ reportsMatch (_compare_dicts (.dict [("a", .int 1), ("timestamp", .int 5)])
      (.dict [("_x", .str "s"), ("a", .int 1)])) = true
  ∧ specKeepKey "timestamp" = false
  ∧ normalizeItems [("timestamp", Payload.int 5)] = normalizeItems [] :=
  ⟨rfl,
   C5_reflexivity_and_ignored_keys.2.1 _ _ rfl,
   by decide,
   C5_reflexivity_and_ignored_keys.2.2 "timestamp" (.int 5) [] (by decide)⟩

/-- Claim C7: sequence order is significant while mapping key order is not:
`[1, 2]` vs `[2, 1]` exits with a mismatch, `{"a": 1, "b": 2}` vs
`{"b": 2, "a": 1}` is reported equivalent at tier 1. -/
theorem C7_sequence_order_significant :
    _compare_dicts (.list [.int 1, .int 2]) (.list [.int 2, .int 1])
      = .mismatch "root[0]: value mismatch 1 vs 2"
  ∧ _compare_dicts (.dict [("a", .int 1), ("b", .int 2)]) (.dict [("b", .int 2), ("a", .int 1)])
      = .matchExact := by
  constructor
  · simp [_compare_dicts, normalize, normalizeItems, normalizeList, pyStartsWith, isPrefixChars,
      ignore_keys, pyEq, pyEqItems, pyEqElems, numVal, lookupKV, dumps, dumpItems, dumpElems,
      sortEntries, insertEntry, renderEntry, joinComma, jsonQuote, escapeChar, dumpFloat, strLt,
      charsLt, find_difference, diffKeys, diffElems, sortedKeyUnion, sortStrs, insertStr,
      dedupKeys, typeName, pyRepr, reprItems, reprElems]
    decide
  · decide

/-- Claim C8, corrected: on `{"a": 1}` vs `{"a": 1.0}` tier-1 structural
equality does NOT fail — Python `==` already equates `1` and `1.0` — and the
tier-2 canonical texts (`"1"` vs `"1.0"`) are not identical, so the claimed
combination (tier 1 fails, tier 2 equates) does not occur on these inputs. -/
theorem C8_int_float_counterexample :
    pyEq (normalize (.dict [("a", .int 1)])) (normalize (.dict [("a", .float (.ofInt 1))])) = true
  ∧ dumps (normalize (.dict [("a", .int 1)])) ≠ dumps (normalize (.dict [("a", .float (.ofInt 1))]))
  ∧ _compare_dicts (.dict [("a", .int 1)]) (.dict [("a", .float (.ofInt 1))]) = .matchExact :=
  ⟨by decide, by decide, by decide⟩

/-- Claim C8 as amended: payloads differing only by an integer on one side
and the floating-point representation of the same value on the other are
reported equivalent, but by tier-1 structural equality (Python `==` equates
`1` and `1.0`), not by the tier-2 canonical-text fallback, whose texts for
the two sides actually differ. -/
theorem C8_int_float_equivalence_amended :
    (∀ n : Int, pyEq (.int n) (.float (.ofInt n)) = true)
  ∧ _compare_dicts (.dict [("a", .int 1)]) (.dict [("a", .float (.ofInt 1))]) = .matchExact
  ∧ dumps (.int 1) ≠ dumps (.float (.ofInt 1)) := by
  refine ⟨fun n => ?_, by decide, by decide⟩
  simp [pyEq, numVal]

/-- Claim C9: fetcher B raises `SystemExit` exactly when the subprocess
exits non-zero, or its stripped stdout is empty, or that output does not
parse as JSON; otherwise it returns the parsed payload. -/
theorem C9_fetch_java_failure_conditions :
    ∀ (res : SubprocResult) (json_loads : String → Option Payload),
      ((∃ e, _fetch_java_clan res json_loads = .error e)
        ↔ res.returncode ≠ 0 ∨ pyStrip res.stdout = ""
          ∨ json_loads (pyStrip res.stdout) = none)
    ∧ (∀ p, res.returncode = 0 → pyStrip res.stdout ≠ "" →
        json_loads (pyStrip res.stdout) = some p →
        _fetch_java_clan res json_loads = .ok p) := by
  intro res jl
  constructor
  · by_cases h0 : res.returncode = 0
    · by_cases h1 : pyStrip res.stdout = ""
      · simp [_fetch_java_clan, h0, h1]
      · cases hj : jl (pyStrip res.stdout) with
        | none => simp [_fetch_java_clan, h0, h1, hj]
        | some p => simp [_fetch_java_clan, h0, h1, hj]
    · simp [_fetch_java_clan, h0]
  · intro p h0 h1 hj
    simp [_fetch_java_clan, h0, h1, hj]

theorem C9_fetch_java_failure_conditions_witness :
    (⟨0, "x", ""⟩ : SubprocResult).returncode = 0
  ∧ pyStrip (⟨0, "x", ""⟩ : SubprocResult).stdout ≠ ""
  ∧ (fun _ : String => some Payload.null) (pyStrip "x") = some Payload.null
  ∧ _fetch_java_clan ⟨0, "x", ""⟩ (fun _ => some Payload.null) = .ok .null :=
  ⟨rfl, by decide, rfl,
   (C9_fetch_java_failure_conditions ⟨0, "x", ""⟩ (fun _ => some .null)).2
     .null rfl (by decide) rfl⟩

/-- Claim C10: `_require_env` treats an empty-string value like an absent
variable — both exit with the missing-variable message — and otherwise
returns the value unchanged. -/
theorem C10_require_env_empty_equals_missing :
    ∀ (name : String) (getenv : String → Option String),
      (getenv name = none →
        _require_env name getenv
          = .error ("Missing required environment variable: " ++ name))
    ∧ (getenv name = some "" →
        _require_env name getenv
          = .error ("Missing required environment variable: " ++ name))
    ∧ (∀ v, getenv name = some v → v ≠ "" →
        _require_env name getenv = .ok v) := by
  intro name getenv
  refine ⟨fun h => ?_, fun h => ?_, fun v h hv => ?_⟩
  · simp [_require_env, pyTruthyStr, h]
  · simp [_require_env, pyTruthyStr, h]
  · simp [_require_env, pyTruthyStr, h, hv]

theorem C10_require_env_empty_equals_missing_witness :
    (fun _ : String => (none : Option String)) "COC_EMAIL" = none
  ∧ _require_env "COC_EMAIL" (fun _ => none)
      = .error ("Missing required environment variable: " ++ "COC_EMAIL")
  ∧ (fun _ : String => some "") "COC_PASSWORD" = some ""
  ∧ _require_env "COC_PASSWORD" (fun _ => some "")
      = .error ("Missing required environment variable: " ++ "COC_PASSWORD")
  ∧ (fun _ : String => some "hunter2") "COC_EMAIL" = some "hunter2"
  ∧ _require_env "COC_EMAIL" (fun _ => some "hunter2") = .ok "hunter2" :=
  ⟨rfl,
   (C10_require_env_empty_equals_missing "COC_EMAIL" (fun _ => none)).1 rfl,
   rfl,
   (C10_require_env_empty_equals_missing "COC_PASSWORD" (fun _ => some "")).2.1 rfl,
   rfl,
   (C10_require_env_empty_equals_missing "COC_EMAIL" (fun _ => some "hunter2")).2.2
     "hunter2" rfl (by decide)⟩

end CompareClan
